import Mathlib

/-!
Shallow embedding of `src/Capstone_Project/app.py`, a Streamlit front-end that
loads a pickled regression model, a feature scaler and two label encoders,
collects six inputs, and renders a crop-yield prediction.  Numeric values are
modelled as rationals; the script's observable behaviour is modelled as a list
of render/call events.
-/

namespace CropApp

/-- Modelled from the spec: a fitted label encoder (produced by the offline
training script, which is not present in the repository).  It holds the list of
distinct category strings seen at fit time (`classes_`); `transform` maps a
category string to its integer code, its index in `classes_`, and raises for a
string not among the learned classes. -/
structure LabelEncoder where
  classes_ : List String
deriving DecidableEq

/-- Index of a string in a list of class strings, `none` when absent. -/
def findIdx : String → List String → Option Nat
  | _, [] => none
  | s, c :: cs => if c = s then some 0 else (findIdx s cs).map (· + 1)

/-- `le.transform s`: the integer code of `s`, or an error for an unseen label
(mirrors scikit-learn's `LabelEncoder.transform` raising `ValueError`). -/
def LabelEncoder.transform (le : LabelEncoder) (s : String) : Except String Nat :=
  match findIdx s le.classes_ with
  | some i => .ok i
  | none => .error ("y contains previously unseen labels: " ++ s)

/-- Modelled from the spec: the fitted feature scaler, normalization parameters
(per-column centre and scale) for the 6 numeric columns, produced by the
offline training script not present in the repository. -/
structure Scaler where
  mean : List ℚ
  scale : List ℚ

/-- Per-column standardization of a row. -/
def scaleRow : List ℚ → List ℚ → List ℚ → List ℚ
  | x :: xs, m :: ms, s :: ss => (x - m) / s :: scaleRow xs ms ss
  | _, _, _ => []

/-- `sc.transform x`: the scaled row, or an error when the row's arity does not
match the arity the scaler was fitted with (mirrors scikit-learn raising on a
feature-count mismatch). -/
def Scaler.transform (sc : Scaler) (x : List ℚ) : Except String (List ℚ) :=
  if sc.mean.length = x.length ∧ sc.scale.length = x.length then
    .ok (scaleRow x sc.mean sc.scale)
  else
    .error "X has a different number of features than the scaler was fitted with"

/-- Modelled from the spec: the fitted regression model, a black-box function
from a scaled feature row to a predicted yield, fitted on `nFeatures` columns
(produced by the offline training script not present in the repository). -/
structure Model where
  nFeatures : Nat
  predictFn : List ℚ → ℚ

/-- `m.predict x`: the prediction on a single row, or an error when the row's
arity does not match the fitted arity. -/
def Model.predict (m : Model) (x : List ℚ) : Except String ℚ :=
  if x.length = m.nFeatures then .ok (m.predictFn x)
  else .error "X has a different number of features than the model was fitted with"

/-- The four artifacts loaded at startup (lines 7-11 of `app.py`). -/
structure Artifacts where
  model : Model
  scaler : Scaler
  le_area : LabelEncoder
  le_item : LabelEncoder

/-- Outcome of the pickle-loading `try` block (lines 7-17): all four files
deserialize, or the first failure is a `FileNotFoundError` (whose message the
handler discards), or some other exception with message `msg`. -/
inductive LoadOutcome where
  | success (arts : Artifacts)
  | fileNotFound (msg : String)
  | otherError (msg : String)

/-- Python's `str.title()` restricted to ASCII letters: the first letter of
each alphabetic run is upper-cased, the rest lower-cased. -/
def titleAux : Bool → List Char → List Char
  | _, [] => []
  | prevAlpha, c :: cs =>
    (if c.isAlpha then (if prevAlpha then c.toLower else c.toUpper) else c)
      :: titleAux c.isAlpha cs

/-- Python's `str.title()` (ASCII model). -/
def pyTitle (s : String) : String := ⟨titleAux false s.data⟩

/-- Rounding to the nearest integer, ties up (Python's formatting rounds the
exact binary value of the float, which is essentially never an exact tie). -/
def qround (x : ℚ) : ℤ := Rat.floor (x + 1 / 2)

/-- Python's fixed-point format `:.2f` modelled over ℚ: round to the nearest
hundredth and print with exactly two digits after the point. -/
def format2 (x : ℚ) : String :=
  let n : ℤ := qround (x * 100)
  let sign := if n < 0 then "-" else ""
  let m := n.natAbs
  sign ++ toString (m / 100) ++ "." ++ (if m % 100 < 10 then "0" else "") ++ toString (m % 100)

/-- Little-endian digit list with a comma inserted after every third digit. -/
def commaRev : List Char → Nat → List Char
  | [], _ => []
  | c :: cs, n =>
    if n ≠ 0 ∧ n % 3 = 0 then ',' :: c :: commaRev cs (n + 1)
    else c :: commaRev cs (n + 1)

/-- Python's format `:,.0f` modelled over ℚ: round to the nearest integer and
group digits by thousands with commas. -/
def formatComma0 (x : ℚ) : String :=
  let n : ℤ := qround x
  let sign := if n < 0 then "-" else ""
  sign ++ String.mk ((commaRev (toString n.natAbs).data.reverse 0).reverse)

/-- Decimal digits of a fractional part, up to `k` of them. -/
def digitsAfterPoint : Nat → ℚ → List Char
  | 0, _ => []
  | k + 1, x =>
    if x = 0 then []
    else
      let y := x * 10
      Char.ofNat (48 + (Rat.floor y).toNat % 10) :: digitsAfterPoint k (y - Rat.floor y)

/-- Python's `str()` of a float, modelled over ℚ for decimal rationals:
integer part, a point, then the fractional digits (at least one, `"20.0"`
style). -/
def pyFloatStr (x : ℚ) : String :=
  let sign := if x < 0 then "-" else ""
  let a := if x < 0 then -x else x
  let ds := digitsAfterPoint 17 (a - Rat.floor a)
  sign ++ toString (Rat.floor a).toNat ++ "." ++ (if ds.isEmpty then "0" else String.mk ds)

/-- Feature-column names, line 21 of `app.py`. -/
def feature_names : List String :=
  ["year", "average_rain_fall_mm_per_year", "avg_temp", "pesticide_tonnes",
   "area_encoded", "item_encoded"]

/-- The single row of the `input_data` frame assembled at lines 62-65 of
`app.py`: `[[year, rainfall, avg_temp, pesticide_tonnes, area_encoded,
item_encoded]]`. -/
def input_data (year rainfall avg_temp pesticide_tonnes : ℚ)
    (area_encoded item_encoded : Nat) : List ℚ :=
  [year, rainfall, avg_temp, pesticide_tonnes, (area_encoded : ℚ), (item_encoded : ℚ)]

/-- Observable behaviour of one run of the script: rendered page/sidebar
elements, the halt marker `stop` (`st.stop()`), and markers recording each
call into the encoder/scaler/model artifacts with its argument. -/
inductive Event where
  | error (msg : String)
  | sidebarError (msg : String)
  | stop
  | title (s : String)
  | markdown (s : String)
  | sidebarHeader (s : String)
  | widget (label : String)
  | subheader (s : String)
  | successBox (s : String)
  | header (s : String)
  | callItemTransform (arg : String)
  | callAreaTransform (arg : String)
  | callScalerTransform (row : List ℚ)
  | callModelPredict (row : List ℚ)
deriving DecidableEq

/-- Events that are calls into one of the loaded artifacts. -/
def Event.isCall : Event → Bool
  | .callItemTransform _ => true
  | .callAreaTransform _ => true
  | .callScalerTransform _ => true
  | .callModelPredict _ => true
  | _ => false

/-- Events that render page content or an input widget (anything beyond the
fatal error message and the halt itself). -/
def Event.isPageContent : Event → Bool
  | .title _ => true
  | .markdown _ => true
  | .sidebarHeader _ => true
  | .widget _ => true
  | .subheader _ => true
  | .successBox _ => true
  | .header _ => true
  | _ => false

/-- The `try`/`except` block at lines 35-41 of `app.py`: read both encoders'
class lists; on any exception both option lists become `["Error"]`.  Whether
the attribute reads raise is external nondeterminism, passed in as
`readFails`. -/
def computeOptions (le_area le_item : LabelEncoder) (readFails : Bool) :
    List String × List String :=
  if readFails then (["Error"], ["Error"])
  else (le_area.classes_, le_item.classes_)

/-- Message of the guard at line 54 of `app.py`. -/
def guardMsg : String := "Cannot make prediction. Encoders were not loaded correctly."

/-- Message prefix of the `except` handler at line 86 of `app.py`. -/
def predictionErrorPrefix : String := "An error occurred during prediction: "

/-- The headline rendered at line 73 of `app.py`. -/
def subheaderText (item_choice area_choice : String) : String :=
  "Predicted Crop Yield for " ++ pyTitle item_choice ++ " in " ++ pyTitle area_choice ++ ":"

/-- The result line rendered at line 74 of `app.py`. -/
def successText (prediction : ℚ) : String :=
  "**" ++ format2 prediction ++ " hg/ha**"

/-- The advisory markdown rendered at lines 79-83 of `app.py` (whitespace of
the Python triple-quoted literal normalized to one line per bullet). -/
def advisoryText (prediction pesticide_tonnes rainfall avg_temp : ℚ) : String :=
  "* **Input Allocation:** A predicted yield of **" ++ format2 prediction ++
    " hg/ha** is a good indicator. You can use this to decide if applying more fertilizer or pesticides (like the "
    ++ formatComma0 pesticide_tonnes ++ " tonnes used in this estimate) is cost-effective.\n" ++
  "* **Risk Assessment:** If the predicted yield is very low, it signals high risk. This could be due to factors like low rainfall ("
    ++ formatComma0 rainfall ++ " mm) or high temperatures (" ++ pyFloatStr avg_temp ++
    "°C). This information can help in planning for potential losses or securing insurance.\n" ++
  "* **Market Planning:** Knowing your expected output helps you negotiate better prices and plan your market logistics in advance."

/-- The button handler, lines 52-86 of `app.py`: guard on the sentinel option
list, then encode, assemble, scale, predict, render; any failure in those
steps is caught by the `except` at line 85 and shown with its message. -/
def predictHandler (arts : Artifacts) (area_options : List String)
    (year rainfall avg_temp pesticide_tonnes : ℚ)
    (item_choice area_choice : String) : List Event :=
  if "Error" ∈ area_options then
    [.error guardMsg]
  else
    match arts.le_item.transform item_choice with
    | .error e => [.callItemTransform item_choice,
                   .error (predictionErrorPrefix ++ e)]
    | .ok item_encoded =>
      match arts.le_area.transform area_choice with
      | .error e => [.callItemTransform item_choice, .callAreaTransform area_choice,
                     .error (predictionErrorPrefix ++ e)]
      | .ok area_encoded =>
        let row := input_data year rainfall avg_temp pesticide_tonnes area_encoded item_encoded
        match arts.scaler.transform row with
        | .error e => [.callItemTransform item_choice, .callAreaTransform area_choice,
                       .callScalerTransform row,
                       .error (predictionErrorPrefix ++ e)]
        | .ok input_data_scaled =>
          match arts.model.predict input_data_scaled with
          | .error e => [.callItemTransform item_choice, .callAreaTransform area_choice,
                         .callScalerTransform row, .callModelPredict input_data_scaled,
                         .error (predictionErrorPrefix ++ e)]
          | .ok prediction =>
            [.callItemTransform item_choice, .callAreaTransform area_choice,
             .callScalerTransform row, .callModelPredict input_data_scaled,
             .subheader (subheaderText item_choice area_choice),
             .successBox (successText prediction),
             .markdown "---",
             .header "How this prediction can help:",
             .markdown (advisoryText prediction pesticide_tonnes rainfall avg_temp)]

/-- Fixed message of the `except FileNotFoundError` handler, line 13. -/
def fileNotFoundMsg : String := "Model files not found! Please run the training script first."

/-- Message prefix of the generic startup `except` handler, line 16. -/
def loadErrorPrefix : String := "An error occurred loading files: "

/-- Fixed message of the encoder-classes `except` handler, line 39. -/
def encoderClassesErrMsg : String := "Error reading encoder classes."

/-- App description markdown, lines 26-29 of `app.py`. -/
def appDescription : String :=
  "This app predicts crop yield (in **hg/ha**) based on environmental and agricultural factors.\nUse the sidebar to input data and click \x27Predict\x27 to see the results."

/-- One full top-to-bottom run of the script `app.py`.  `load` is the outcome
of the pickle loads (lines 7-17), `readFails` whether reading the encoder
class lists raises (lines 35-41), `buttonPressed` whether this rerun was
triggered by the predict button (line 52); the six user inputs follow. -/
def runApp (load : LoadOutcome) (readFails buttonPressed : Bool)
    (year rainfall avg_temp pesticide_tonnes : ℚ)
    (item_choice area_choice : String) : List Event :=
  match load with
  | .fileNotFound _ => [.error fileNotFoundMsg, .stop]
  | .otherError e => [.error (loadErrorPrefix ++ e), .stop]
  | .success arts =>
    let opts := computeOptions arts.le_area arts.le_item readFails
    [.title "🌱 Crop Yield Prediction for Smallholder Farmers",
     .markdown appDescription,
     .sidebarHeader "Input Features"]
    ++ (if readFails then [.sidebarError encoderClassesErrMsg] else [])
    ++ [.widget "Year", .widget "Average Temperature (°C)",
        .widget "Average Rainfall (mm/year)", .widget "Pesticide Use (tonnes)",
        .widget "Crop Type", .widget "Area/Country", .widget "Predict Crop Yield"]
    ++ (if buttonPressed then
          predictHandler arts opts.1 year rainfall avg_temp pesticide_tonnes
            item_choice area_choice
        else [])

/-- `sub` occurs as a substring of `whole`. -/
def IncludesText (sub whole : String) : Prop :=
  ∃ p q : String, whole = p ++ sub ++ q

/-- Example area encoder whose learned classes put `"Nigeria"` at code 7. -/
def egLeArea : LabelEncoder :=
  ⟨["Algeria", "Angola", "Benin", "Egypt", "Ghana", "Kenya", "Morocco", "Nigeria"]⟩

/-- Example item encoder whose learned classes put `"Maize"` at code 3. -/
def egLeItem : LabelEncoder := ⟨["Barley", "Cassava", "Lentils", "Maize"]⟩

/-- Example identity-like scaler fitted on 6 columns. -/
def egScaler : Scaler := ⟨[0, 0, 0, 0, 0, 0], [1, 1, 1, 1, 1, 1]⟩

/-- Example model fitted on 6 columns, constantly predicting 2345.678. -/
def egModel : Model := ⟨6, fun _ => 2345678 / 1000⟩

/-- Example artifact set. -/
def egArts : Artifacts := ⟨egModel, egScaler, egLeArea, egLeItem⟩

/-- An example `FileNotFoundError` exception text for a missing artifact. -/
def fnfExampleMsg : String :=
  "[Errno 2] No such file or directory: \x27/home/user/Data-Science/Capstone_Project/crop_yield_model.pkl\x27"

/-- A string found in a class list has an index there. -/
theorem findIdx_of_mem {s : String} {l : List String} (h : s ∈ l) :
    ∃ i, findIdx s l = some i := by
  induction l with
  | nil => cases h
  | cons c cs ih =>
    by_cases hc : c = s
    · exact ⟨0, by simp [findIdx, hc]⟩
    · have h' : s ∈ cs := by
        rcases List.mem_cons.1 h with h | h
        · exact absurd h.symm hc
        · exact h
      rcases ih h' with ⟨i, hi⟩
      exact ⟨i + 1, by simp [findIdx, hc, hi]⟩

/-- Transforming a learned class succeeds. -/
theorem transform_ok_of_mem {le : LabelEncoder} {s : String} (h : s ∈ le.classes_) :
    ∃ i, le.transform s = .ok i := by
  rcases findIdx_of_mem h with ⟨i, hi⟩
  exact ⟨i, by simp [LabelEncoder.transform, hi]⟩

/-- Standardizing a row preserves its arity when the parameters match it. -/
theorem scaleRow_length (xs ms ss : List ℚ) (h1 : ms.length = xs.length)
    (h2 : ss.length = xs.length) : (scaleRow xs ms ss).length = xs.length := by
  induction xs generalizing ms ss with
  | nil =>
    cases ms with
    | nil => cases ss <;> simp [scaleRow]
    | cons m ms => simp at h1
  | cons x xs ih =>
    cases ms with
    | nil => simp at h1
    | cons m ms =>
      cases ss with
      | nil => simp at h2
      | cons s ss =>
        simp [scaleRow]
        exact ih ms ss (by simpa using h1) (by simpa using h2)

/-- A string includes any of its suffixes' text. -/
theorem includesText_self_suffix (p s : String) : IncludesText s (p ++ s) :=
  ⟨p, "", (String.append_empty (p ++ s)).symm⟩

/-- When the guard passes and every pipeline step succeeds, the handler's
event trace is the full success trace. -/
theorem predictHandler_success (arts : Artifacts) (area_options : List String)
    (year rainfall avg_temp pesticide_tonnes : ℚ) (item_choice area_choice : String)
    (item_encoded area_encoded : Nat) (scaled : List ℚ) (p : ℚ)
    (hg : "Error" ∉ area_options)
    (hi : arts.le_item.transform item_choice = .ok item_encoded)
    (ha : arts.le_area.transform area_choice = .ok area_encoded)
    (hs : arts.scaler.transform
      (input_data year rainfall avg_temp pesticide_tonnes area_encoded item_encoded) = .ok scaled)
    (hm : arts.model.predict scaled = .ok p) :
    predictHandler arts area_options year rainfall avg_temp pesticide_tonnes item_choice area_choice =
      [.callItemTransform item_choice, .callAreaTransform area_choice,
       .callScalerTransform (input_data year rainfall avg_temp pesticide_tonnes area_encoded item_encoded),
       .callModelPredict scaled,
       .subheader (subheaderText item_choice area_choice),
       .successBox (successText p),
       .markdown "---",
       .header "How this prediction can help:",
       .markdown (advisoryText p pesticide_tonnes rainfall avg_temp)] := by
  simp only [predictHandler, if_neg hg, hi, ha, hs, hm]

/-- Claim C1: on every predict invocation that reaches the scaler, the
6-element feature vector passed to it is assembled in the exact order
`[year, rainfall, avg_temp, pesticide_tonnes, area_encoded, item_encoded]`;
the witness instantiates this at inputs
`(2024, 1200.0, 20.0, 50000.0, "Nigeria", "Maize")` with encoders mapping
`"Nigeria"` to 7 and `"Maize"` to 3, giving `[2024, 1200, 20, 50000, 7, 3]`. -/
theorem featureVector_order (arts : Artifacts) (area_options : List String)
    (year rainfall avg_temp pesticide_tonnes : ℚ) (item_choice area_choice : String)
    (item_encoded area_encoded : Nat)
    (hg : "Error" ∉ area_options)
    (hi : arts.le_item.transform item_choice = .ok item_encoded)
    (ha : arts.le_area.transform area_choice = .ok area_encoded) :
    input_data year rainfall avg_temp pesticide_tonnes area_encoded item_encoded
      = [year, rainfall, avg_temp, pesticide_tonnes, (area_encoded : ℚ), (item_encoded : ℚ)]
    ∧ Event.callScalerTransform
        (input_data year rainfall avg_temp pesticide_tonnes area_encoded item_encoded)
      ∈ predictHandler arts area_options year rainfall avg_temp pesticide_tonnes
          item_choice area_choice := by
  refine ⟨rfl, ?_⟩
  simp only [predictHandler, if_neg hg, hi, ha]
  rcases hs : arts.scaler.transform
    (input_data year rainfall avg_temp pesticide_tonnes area_encoded item_encoded) with e | scaled
  · simp [hs]
  · rcases hm : arts.model.predict scaled with e | p <;> simp [hs, hm]

/-- Claim C1 witness: the concrete instance of the spec's test vector. -/
theorem featureVector_order_witness :
    input_data 2024 1200 20 50000 7 3
      = [2024, 1200, 20, 50000, ((7 : Nat) : ℚ), ((3 : Nat) : ℚ)]
    ∧ Event.callScalerTransform (input_data 2024 1200 20 50000 7 3)
      ∈ predictHandler egArts egLeArea.classes_ 2024 1200 20 50000 "Maize" "Nigeria" :=
  featureVector_order egArts egLeArea.classes_ 2024 1200 20 50000 "Maize" "Nigeria" 3 7
    (by decide) (by with_unfolding_all rfl) (by with_unfolding_all rfl)

/-- Claim C2: if reading the encoder class lists fails, both option lists
equal `["Error"]`, and a press of the predict button yields only the
configuration error: the run's trace contains that error and no call into the
encoders, the scaler, or the model. -/
theorem encoderReadFailure_shortCircuits (arts : Artifacts)
    (year rainfall avg_temp pesticide_tonnes : ℚ) (item_choice area_choice : String) :
    computeOptions arts.le_area arts.le_item true = (["Error"], ["Error"])
    ∧ predictHandler arts ["Error"] year rainfall avg_temp pesticide_tonnes
        item_choice area_choice = [.error guardMsg]
    ∧ Event.error guardMsg ∈ runApp (.success arts) true true year rainfall avg_temp
        pesticide_tonnes item_choice area_choice
    ∧ (runApp (.success arts) true true year rainfall avg_temp pesticide_tonnes
        item_choice area_choice).all (fun e => !e.isCall) = true := by
  refine ⟨rfl, ?_, ?_, ?_⟩
  · simp [predictHandler]
  · simp [runApp, computeOptions, predictHandler]
  · simp [runApp, computeOptions, predictHandler, Event.isCall]

/-- Claim C3: past the guard, the handler is total; every failure of
encoding, scaling, or prediction is caught and surfaced as an error event
whose message contains the underlying error text, the run is never halted
(`st.stop` is absent), and on failure no result box is rendered.  The
artifacts, passed by value to a pure function, are unchanged by construction,
so the form remains usable for a retry. -/
theorem prediction_errors_caught (arts : Artifacts) (area_options : List String)
    (year rainfall avg_temp pesticide_tonnes : ℚ) (item_choice area_choice : String)
    (hg : "Error" ∉ area_options) :
    Event.stop ∉ predictHandler arts area_options year rainfall avg_temp pesticide_tonnes
        item_choice area_choice
    ∧ ((∃ p : ℚ, Event.successBox (successText p) ∈ predictHandler arts area_options year
          rainfall avg_temp pesticide_tonnes item_choice area_choice)
      ∨ (∃ e : String,
          Event.error (predictionErrorPrefix ++ e) ∈ predictHandler arts area_options year
            rainfall avg_temp pesticide_tonnes item_choice area_choice
          ∧ IncludesText e (predictionErrorPrefix ++ e)
          ∧ ∀ p : ℚ, Event.successBox (successText p) ∉ predictHandler arts area_options year
              rainfall avg_temp pesticide_tonnes item_choice area_choice)) := by
  simp only [predictHandler, if_neg hg]
  rcases hi : arts.le_item.transform item_choice with e | item_encoded
  · refine ⟨by simp, .inr ⟨e, by simp, includesText_self_suffix _ _, by simp⟩⟩
  · rcases ha : arts.le_area.transform area_choice with e | area_encoded
    · refine ⟨by simp, .inr ⟨e, by simp, includesText_self_suffix _ _, by simp⟩⟩
    · rcases hs : arts.scaler.transform
        (input_data year rainfall avg_temp pesticide_tonnes area_encoded item_encoded) with e | scaled
      · refine ⟨by simp [hs], .inr ⟨e, by simp [hs], includesText_self_suffix _ _, by simp [hs]⟩⟩
      · rcases hm : arts.model.predict scaled with e | p
        · refine ⟨by simp [hs, hm], .inr ⟨e, by simp [hs, hm], includesText_self_suffix _ _,
            by simp [hs, hm]⟩⟩
        · refine ⟨by simp [hs, hm], .inl ⟨p, by simp [hs, hm]⟩⟩

/-- Claim C3 witness. -/
theorem prediction_errors_caught_witness :
    Event.stop ∉ predictHandler egArts egLeArea.classes_ 2024 1200 20 50000 "Maize" "Nigeria"
    ∧ ((∃ p : ℚ, Event.successBox (successText p)
          ∈ predictHandler egArts egLeArea.classes_ 2024 1200 20 50000 "Maize" "Nigeria")
      ∨ (∃ e : String,
          Event.error (predictionErrorPrefix ++ e)
            ∈ predictHandler egArts egLeArea.classes_ 2024 1200 20 50000 "Maize" "Nigeria"
          ∧ IncludesText e (predictionErrorPrefix ++ e)
          ∧ ∀ p : ℚ, Event.successBox (successText p)
              ∉ predictHandler egArts egLeArea.classes_ 2024 1200 20 50000 "Maize" "Nigeria")) :=
  prediction_errors_caught egArts egLeArea.classes_ 2024 1200 20 50000 "Maize" "Nigeria"
    (by decide)

/-- Claim C4 counterexample: not every user-visible error message includes the
underlying exception text.  At startup with a missing artifact file whose
`FileNotFoundError` text is `fnfExampleMsg`, the message shown is the fixed
`fileNotFoundMsg`, which does not contain that text. -/
theorem fileNotFound_message_omits_text :
    runApp (.fileNotFound fnfExampleMsg) false false 2024 1200 20 50000 "Maize" "Nigeria"
      = [Event.error fileNotFoundMsg, Event.stop]
    ∧ ¬ IncludesText fnfExampleMsg fileNotFoundMsg := by
  refine ⟨rfl, ?_⟩
  rintro ⟨p, q, hpq⟩
  have hlen := congrArg String.length hpq
  rw [String.length_append, String.length_append] at hlen
  have h1 : fileNotFoundMsg.length = 60 := by decide
  have h2 : fnfExampleMsg.length = 100 := by decide
  omega

/-- Claim C4 (amended): the generic startup load handler and the per-request
prediction handler include the underlying exception text in their messages;
the `FileNotFoundError` startup handler and the encoder-class read handler
show fixed messages that are independent of the exception. -/
theorem errorMessages_text_inclusion (e m₁ m₂ : String) (arts : Artifacts)
    (readFails buttonPressed : Bool)
    (year rainfall avg_temp pesticide_tonnes : ℚ) (item_choice area_choice : String) :
    IncludesText e (loadErrorPrefix ++ e)
    ∧ runApp (.otherError e) readFails buttonPressed year rainfall avg_temp pesticide_tonnes
        item_choice area_choice = [Event.error (loadErrorPrefix ++ e), Event.stop]
    ∧ IncludesText e (predictionErrorPrefix ++ e)
    ∧ runApp (.fileNotFound m₁) readFails buttonPressed year rainfall avg_temp
        pesticide_tonnes item_choice area_choice
      = runApp (.fileNotFound m₂) readFails buttonPressed year rainfall avg_temp
          pesticide_tonnes item_choice area_choice
    ∧ Event.sidebarError encoderClassesErrMsg ∈ runApp (.success arts) true buttonPressed
        year rainfall avg_temp pesticide_tonnes item_choice area_choice :=
  ⟨includesText_self_suffix _ _, rfl, includesText_self_suffix _ _, rfl, by simp [runApp]⟩

/-- Claim C5: when an artifact file is missing at startup, the session's whole
trace is the fatal error message followed by the halt: no input widget, no
page content, and no call into encoders, scaler, or model ever happens. -/
theorem missing_artifact_halts (msg : String) (readFails buttonPressed : Bool)
    (year rainfall avg_temp pesticide_tonnes : ℚ) (item_choice area_choice : String) :
    runApp (.fileNotFound msg) readFails buttonPressed year rainfall avg_temp
        pesticide_tonnes item_choice area_choice
      = [Event.error fileNotFoundMsg, Event.stop]
    ∧ (runApp (.fileNotFound msg) readFails buttonPressed year rainfall avg_temp
        pesticide_tonnes item_choice area_choice).all
        (fun e => !e.isPageContent && !e.isCall) = true :=
  ⟨rfl, rfl⟩

/-- Claim C6: on a successful prediction, the headline shows the crop and area
names title-cased, the result box shows the prediction formatted to exactly two
decimal places followed by `hg/ha`, and in particular 2345.678 formats as
`"2345.68"`. -/
theorem success_rendering_format (arts : Artifacts) (area_options : List String)
    (year rainfall avg_temp pesticide_tonnes : ℚ) (item_choice area_choice : String)
    (item_encoded area_encoded : Nat) (scaled : List ℚ) (prediction : ℚ)
    (hg : "Error" ∉ area_options)
    (hi : arts.le_item.transform item_choice = .ok item_encoded)
    (ha : arts.le_area.transform area_choice = .ok area_encoded)
    (hs : arts.scaler.transform
      (input_data year rainfall avg_temp pesticide_tonnes area_encoded item_encoded) = .ok scaled)
    (hm : arts.model.predict scaled = .ok prediction) :
    Event.subheader ("Predicted Crop Yield for " ++ pyTitle item_choice ++ " in "
        ++ pyTitle area_choice ++ ":")
      ∈ predictHandler arts area_options year rainfall avg_temp pesticide_tonnes
          item_choice area_choice
    ∧ Event.successBox ("**" ++ format2 prediction ++ " hg/ha**")
      ∈ predictHandler arts area_options year rainfall avg_temp pesticide_tonnes
          item_choice area_choice
    ∧ format2 (2345678 / 1000) = "2345.68" := by
  have h := predictHandler_success arts area_options year rainfall avg_temp pesticide_tonnes
    item_choice area_choice item_encoded area_encoded scaled prediction hg hi ha hs hm
  refine ⟨?_, ?_, by with_unfolding_all decide⟩ <;> rw [h] <;>
    simp [subheaderText, successText]

/-- Claim C6 witness: with a model predicting 2345.678, the result box reads
`**2345.68 hg/ha**`. -/
theorem success_rendering_format_witness :
    Event.subheader ("Predicted Crop Yield for " ++ pyTitle "Maize" ++ " in "
        ++ pyTitle "Nigeria" ++ ":")
      ∈ predictHandler egArts egLeArea.classes_ 2024 1200 20 50000 "Maize" "Nigeria"
    ∧ Event.successBox ("**" ++ format2 (2345678 / 1000) ++ " hg/ha**")
      ∈ predictHandler egArts egLeArea.classes_ 2024 1200 20 50000 "Maize" "Nigeria"
    ∧ format2 (2345678 / 1000) = "2345.68" :=
  success_rendering_format egArts egLeArea.classes_ 2024 1200 20 50000 "Maize" "Nigeria"
    3 7 [2024, 1200, 20, 50000, 7, 3] (2345678 / 1000)
    (by decide) (by with_unfolding_all rfl) (by with_unfolding_all rfl)
    (by with_unfolding_all rfl) (by with_unfolding_all rfl)

/-- Claim C7: for inputs within the declared ranges whose category strings are
among the learned classes — with artifacts fitted consistently on 6 columns,
the class read succeeding, and `"Error"` not a learned area class — the
predict operation reaches the success branch, rendering a result with some
rational (hence finite, never NaN or infinite) prediction value, and raises no
error. -/
theorem validInputs_predict_total (arts : Artifacts)
    (year rainfall avg_temp pesticide_tonnes : ℚ) (item_choice area_choice : String)
    (hyear : 2010 ≤ year ∧ year ≤ 2030)
    (hrain : 0 ≤ rainfall ∧ rainfall ≤ 8000)
    (htemp : -10 ≤ avg_temp ∧ avg_temp ≤ 45)
    (hpest : 0 ≤ pesticide_tonnes ∧ pesticide_tonnes ≤ 400000)
    (hitem : item_choice ∈ arts.le_item.classes_)
    (harea : area_choice ∈ arts.le_area.classes_)
    (hne : "Error" ∉ arts.le_area.classes_)
    (hmean : arts.scaler.mean.length = 6) (hscale : arts.scaler.scale.length = 6)
    (hnf : arts.model.nFeatures = 6) :
    (∃ p : ℚ, Event.successBox (successText p) ∈ predictHandler arts
        (computeOptions arts.le_area arts.le_item false).1 year rainfall avg_temp
        pesticide_tonnes item_choice area_choice)
    ∧ ∀ m, Event.error m ∉ predictHandler arts
        (computeOptions arts.le_area arts.le_item false).1 year rainfall avg_temp
        pesticide_tonnes item_choice area_choice := by
  obtain ⟨ie, hi⟩ := transform_ok_of_mem hitem
  obtain ⟨ae, ha⟩ := transform_ok_of_mem harea
  have hrow : (input_data year rainfall avg_temp pesticide_tonnes ae ie).length = 6 := rfl
  have hs : arts.scaler.transform (input_data year rainfall avg_temp pesticide_tonnes ae ie)
      = .ok (scaleRow (input_data year rainfall avg_temp pesticide_tonnes ae ie)
          arts.scaler.mean arts.scaler.scale) := by
    unfold Scaler.transform
    rw [if_pos ⟨hmean.trans hrow.symm, hscale.trans hrow.symm⟩]
  have hslen : (scaleRow (input_data year rainfall avg_temp pesticide_tonnes ae ie)
      arts.scaler.mean arts.scaler.scale).length = 6 :=
    (scaleRow_length _ _ _ (hmean.trans hrow.symm) (hscale.trans hrow.symm)).trans hrow
  have hm : arts.model.predict (scaleRow (input_data year rainfall avg_temp pesticide_tonnes ae ie)
      arts.scaler.mean arts.scaler.scale)
      = .ok (arts.model.predictFn (scaleRow (input_data year rainfall avg_temp pesticide_tonnes ae ie)
          arts.scaler.mean arts.scaler.scale)) := by
    unfold Model.predict
    rw [if_pos (hslen.trans hnf.symm)]
  have h := predictHandler_success arts (computeOptions arts.le_area arts.le_item false).1
    year rainfall avg_temp pesticide_tonnes item_choice area_choice ie ae _ _ hne hi ha hs hm
  rw [h]
  refine ⟨⟨arts.model.predictFn (scaleRow (input_data year rainfall avg_temp pesticide_tonnes ae ie)
    arts.scaler.mean arts.scaler.scale), ?_⟩, fun m => ?_⟩ <;> simp

/-- Claim C7 witness. -/
theorem validInputs_predict_total_witness :
    (∃ p : ℚ, Event.successBox (successText p) ∈ predictHandler egArts
        (computeOptions egArts.le_area egArts.le_item false).1 2024 1200 20 50000
        "Maize" "Nigeria")
    ∧ ∀ m, Event.error m ∉ predictHandler egArts
        (computeOptions egArts.le_area egArts.le_item false).1 2024 1200 20 50000
        "Maize" "Nigeria" :=
  validInputs_predict_total egArts 2024 1200 20 50000 "Maize" "Nigeria"
    (by with_unfolding_all decide) (by with_unfolding_all decide)
    (by with_unfolding_all decide) (by with_unfolding_all decide)
    (by decide) (by decide) (by decide) (by decide) (by decide) (by decide)

/-- Claim C8: categorical encoding is deterministic — two invocations of the
same encoder's transform on the same category string yield the same result
(definitional in this pure embedding, where transform depends only on the
fitted class list). -/
theorem encoding_deterministic (le : LabelEncoder) (s : String)
    (r₁ r₂ : Except String Nat)
    (h₁ : le.transform s = r₁) (h₂ : le.transform s = r₂) : r₁ = r₂ :=
  h₁.symm.trans h₂

/-- Claim C8 witness. -/
theorem encoding_deterministic_witness :
    LabelEncoder.transform ⟨["Maize"]⟩ "Maize" = .ok 0 :=
  encoding_deterministic ⟨["Maize"]⟩ "Maize" _ (.ok 0) rfl (by with_unfolding_all rfl)

/-- Claim C9 counterexample: the unconditional iff fails.  With an area
encoder whose learned classes are literally `["Error"]`, an item encoder with
classes `["Maize"]`, and a successful class read, `area_options = ["Error"]`
while `item_options ≠ ["Error"]`. -/
theorem optionLists_error_iff_counterexample :
    ¬ ((computeOptions ⟨["Error"]⟩ ⟨["Maize"]⟩ false).1 = ["Error"]
      ↔ (computeOptions ⟨["Error"]⟩ ⟨["Maize"]⟩ false).2 = ["Error"]) := by
  decide

/-- Claim C9 (amended): provided neither encoder's learned class list is
itself `["Error"]`, the two option lists enter and leave the error state
together, and whenever the item option list is in the error state the predict
guard (which inspects only the area option list) blocks prediction with the
configuration error. -/
theorem optionLists_error_sync (arts : Artifacts) (readFails : Bool)
    (year rainfall avg_temp pesticide_tonnes : ℚ) (item_choice area_choice : String)
    (ha : arts.le_area.classes_ ≠ ["Error"]) (hi : arts.le_item.classes_ ≠ ["Error"]) :
    ((computeOptions arts.le_area arts.le_item readFails).1 = ["Error"]
      ↔ (computeOptions arts.le_area arts.le_item readFails).2 = ["Error"])
    ∧ ((computeOptions arts.le_area arts.le_item readFails).2 = ["Error"] →
        predictHandler arts (computeOptions arts.le_area arts.le_item readFails).1
          year rainfall avg_temp pesticide_tonnes item_choice area_choice
          = [Event.error guardMsg]) := by
  cases readFails with
  | false =>
    refine ⟨by simp [computeOptions, ha, hi], fun h => absurd h ?_⟩
    simpa [computeOptions] using hi
  | true =>
    refine ⟨by simp [computeOptions], fun _ => ?_⟩
    simp [computeOptions, predictHandler]

/-- Claim C9 witness. -/
theorem optionLists_error_sync_witness :
    ((computeOptions egArts.le_area egArts.le_item true).1 = ["Error"]
      ↔ (computeOptions egArts.le_area egArts.le_item true).2 = ["Error"])
    ∧ ((computeOptions egArts.le_area egArts.le_item true).2 = ["Error"] →
        predictHandler egArts (computeOptions egArts.le_area egArts.le_item true).1
          2024 1200 20 50000 "Maize" "Nigeria" = [Event.error guardMsg]) :=
  optionLists_error_sync egArts true 2024 1200 20 50000 "Maize" "Nigeria"
    (by decide) (by decide)

/-- Claim C10: the guard tests membership of the literal `"Error"` in the
area option list, so when the area encoder's learned classes genuinely contain
`"Error"` (and the class read succeeds), every predict attempt is rejected
with the configuration error message. -/
theorem errorClass_blocks_prediction (arts : Artifacts)
    (year rainfall avg_temp pesticide_tonnes : ℚ) (item_choice area_choice : String)
    (h : "Error" ∈ arts.le_area.classes_) :
    predictHandler arts (computeOptions arts.le_area arts.le_item false).1
      year rainfall avg_temp pesticide_tonnes item_choice area_choice
      = [Event.error guardMsg] := by
  simp [computeOptions, predictHandler, h]

/-- Claim C10 witness. -/
theorem errorClass_blocks_prediction_witness :
    predictHandler ⟨egModel, egScaler, ⟨["Error", "Nigeria"]⟩, egLeItem⟩
      (computeOptions (⟨["Error", "Nigeria"]⟩ : LabelEncoder) egLeItem false).1
      2024 1200 20 50000 "Maize" "Nigeria" = [Event.error guardMsg] :=
  errorClass_blocks_prediction ⟨egModel, egScaler, ⟨["Error", "Nigeria"]⟩, egLeItem⟩
    2024 1200 20 50000 "Maize" "Nigeria" (by decide)

end CropApp
